import Mathlib

/-!
Shallow embedding of the rule-based SEO page-analysis engine of
`A7med7777/market-go` (files `app/seo/seo_analyzer.py` and
`app/seo/views.py`), together with theorems settling the frozen claims
about it.

Modelling conventions:
* Python dictionaries keyed by strings become association lists
  `List (String × _)`; insertion order is preserved.
* Python floats arising from the score arithmetic (`0.5`, `/`, `round`)
  are modelled exactly with `ℚ`; `round` is Python's round-half-to-even.
* BeautifulSoup queries are modelled by list operations over structured
  records carrying the attributes the source reads; `requests` calls are
  modelled by explicit response values (`Option` = exception on `none`).
* Fallible Python code (code that can raise) returns `Except String _`;
  total code returns plain values.
-/

namespace MarketGo

/-- Python's `round` on an exact rational: round half to even. -/
def pythonRound (q : ℚ) : ℤ :=
  if Int.fract q < 1/2 then ⌊q⌋
  else if 1/2 < Int.fract q then ⌊q⌋ + 1
  else if ⌊q⌋ % 2 = 0 then ⌊q⌋ else ⌊q⌋ + 1

/-- The base fields of the uniform Check Result record every analyzer
returns (evidence fields `code_snippet` / `how_to_fix` are carried by the
source dictionaries but no claim concerns them, so the embedding projects
them away). -/
structure CheckResult where
  status : String
  description : String
deriving Repr, DecidableEq

/-- The score summary dictionary built by `calculate_seo_score`
(`app/seo/views.py`).  `warnings` is a rational because the source
accumulates `0.5` per warning into this very field. -/
structure ScoreSummary where
  total_tests : Nat
  score : ℤ
  passed_tests : Nat
  warnings : ℚ
  failed_tests : Nat
deriving Repr, DecidableEq

/-- The counting loop of `calculate_seo_score`: one pass over the report,
incrementing `passed_tests` by 1, `warnings` by 0.5, `failed_tests` by 1
according to the entry's status. -/
def scoreTally (data : List (String × CheckResult)) : Nat × ℚ × Nat :=
  data.foldl (fun acc kv =>
    if kv.2.status = "passed" then (acc.1 + 1, acc.2.1, acc.2.2)
    else if kv.2.status = "warning" then (acc.1, acc.2.1 + 1/2, acc.2.2)
    else if kv.2.status = "failed" then (acc.1, acc.2.1, acc.2.2 + 1)
    else acc) (0, 0, 0)

/-- `calculate_seo_score` from `app/seo/views.py`. -/
def calculate_seo_score (data : List (String × CheckResult)) : ScoreSummary :=
  let total_tests := data.length
  let tally := scoreTally data
  let passed_tests := tally.1
  let warnings := tally.2.1
  let failed_tests := tally.2.2
  let score : ℚ :=
    if 0 < total_tests then ((passed_tests : ℚ) + warnings) * 100 / (total_tests : ℚ) else 0
  { total_tests := total_tests
    score := pythonRound score
    passed_tests := passed_tests
    warnings := warnings
    failed_tests := failed_tests }

/-- Number of report entries whose status is exactly `s`. -/
def statusCount (data : List (String × CheckResult)) (s : String) : Nat :=
  (data.filter (fun kv => kv.2.status = s)).length

/-- A report entry with the given status (description irrelevant here). -/
def entry (k s : String) : String × CheckResult :=
  (k, { status := s, description := "d" })

/-- The spec's worked example: 10 checks, 6 passed, 2 warning, 2 failed. -/
def exampleReport : List (String × CheckResult) :=
  [entry "c1" "passed", entry "c2" "passed", entry "c3" "passed",
   entry "c4" "passed", entry "c5" "passed", entry "c6" "passed",
   entry "c7" "warning", entry "c8" "warning",
   entry "c9" "failed", entry "c10" "failed"]

/-- A report with exactly two warning-status checks. -/
def twoWarningReport : List (String × CheckResult) :=
  [entry "a" "warning", entry "b" "warning"]

theorem scoreTally_eq (data : List (String × CheckResult)) :
    scoreTally data =
      (statusCount data "passed",
       (statusCount data "warning" : ℚ) / 2,
       statusCount data "failed") := by
  suffices h : ∀ (p : Nat) (w : ℚ) (f : Nat),
      data.foldl (fun acc kv =>
        if kv.2.status = "passed" then (acc.1 + 1, acc.2.1, acc.2.2)
        else if kv.2.status = "warning" then (acc.1, acc.2.1 + 1/2, acc.2.2)
        else if kv.2.status = "failed" then (acc.1, acc.2.1, acc.2.2 + 1)
        else acc) (p, w, f) =
      (p + statusCount data "passed",
       w + (statusCount data "warning" : ℚ) / 2,
       f + statusCount data "failed") by
    have := h 0 0 0
    simpa [scoreTally] using this
  induction data with
  | nil => intro p w f; simp [statusCount]
  | cons kv rest ih =>
    intro p w f
    by_cases hp : kv.2.status = "passed"
    · simp only [List.foldl_cons, hp, if_pos rfl, ih, statusCount, List.filter_cons]
      have h1 : ¬ kv.2.status = "warning" := by simp [hp]
      have h2 : ¬ kv.2.status = "failed" := by simp [hp]
      simp [hp, h1, h2, statusCount]
      omega
    · by_cases hw : kv.2.status = "warning"
      · have h2 : ¬ kv.2.status = "failed" := by simp [hw]
        simp only [List.foldl_cons, if_neg hp, if_pos hw, ih]
        simp [statusCount, List.filter_cons, hp, hw, h2]
        ring
      · by_cases hf : kv.2.status = "failed"
        · simp only [List.foldl_cons, if_neg hp, if_neg hw, if_pos hf, ih]
          simp [statusCount, List.filter_cons, hp, hw, hf]
          omega
        · simp only [List.foldl_cons, if_neg hp, if_neg hw, if_neg hf, ih]
          simp [statusCount, List.filter_cons, hp, hw, hf]

/-- C1: for every report, `calculate_seo_score` returns
`score = round((passedCount + 0.5 * warningCount) * 100 / totalChecks)`
(Python rounding), and `0` when the report is empty; in particular the
spec's example report of 10 checks with 6 passed, 2 warning, 2 failed
scores 70. -/
theorem C1_score_formula :
    (∀ data : List (String × CheckResult),
      (calculate_seo_score data).score =
        (if data.length = 0 then 0
         else pythonRound
           (((statusCount data "passed" : ℚ) +
              (1/2 : ℚ) * (statusCount data "warning" : ℚ)) * 100
            / (data.length : ℚ)))) ∧
    (calculate_seo_score exampleReport).score = 70 := by
  constructor
  · intro data
    simp only [calculate_seo_score, scoreTally_eq]
    rcases Nat.eq_zero_or_pos data.length with h | h
    · simp [h, pythonRound, Int.fract]
    · have h0 : ¬ data.length = 0 := by omega
      simp only [if_pos h, if_neg h0]
      congr 1
      ring
  · have h70 : (calculate_seo_score exampleReport).score = pythonRound 70 := by
      simp [calculate_seo_score, scoreTally_eq, statusCount, exampleReport, entry]
      norm_num
    rw [h70]
    simp [pythonRound, Int.fract]

/-- C3 fails on the code: for a report with exactly two warning-status
checks, the `warnings` field of the summary is `1`, not the whole
count `2` — the source adds `0.5` to `warnings` per warning entry. -/
theorem C3_counterexample :
    statusCount twoWarningReport "warning" = 2 ∧
    (calculate_seo_score twoWarningReport).warnings = 1 ∧
    (calculate_seo_score twoWarningReport).warnings ≠
      (statusCount twoWarningReport "warning" : ℚ) := by
  refine ⟨by simp [statusCount, twoWarningReport, entry], ?_, ?_⟩
  · simp [calculate_seo_score, scoreTally_eq, statusCount, twoWarningReport, entry]
  · simp [calculate_seo_score, scoreTally_eq, statusCount, twoWarningReport, entry]

/-- C3 amended: the `warnings` field of the score summary equals half the
number of warning-status entries (the source accumulates 0.5 per warning
into the reported field itself); a report with exactly 2 warning-status
checks reports `warnings = 1`. -/
theorem C3_warnings_half_weighted :
    (∀ data : List (String × CheckResult),
      (calculate_seo_score data).warnings =
        (statusCount data "warning" : ℚ) / 2) ∧
    (calculate_seo_score twoWarningReport).warnings = 1 := by
  constructor
  · intro data
    simp [calculate_seo_score, scoreTally_eq]
  · simp [calculate_seo_score, scoreTally_eq, statusCount, twoWarningReport, entry]

/-! ### String helpers mirroring the Python primitives the analyzers use.
Description strings are transcribed from the source up to ASCII
punctuation (apostrophes in the source prose are dropped). -/

/-- Python's `s.strip()` on the character list. -/
def pyStripList (l : List Char) : List Char :=
  ((l.dropWhile Char.isWhitespace).reverse.dropWhile Char.isWhitespace).reverse

/-- Python's `s.strip()`. -/
def pyStrip (s : String) : String := ⟨pyStripList s.data⟩

/-- Python's `s.lower()` (ASCII case folding suffices here). -/
def pyLower (s : String) : String := ⟨s.data.map Char.toLower⟩

/-- Python's `s.startswith(pre)`. -/
def pyStartsWith (s pre : String) : Bool := pre.data.isPrefixOf s.data

/-- Python's `s.endswith(suf)`. -/
def pyEndsWith (s suf : String) : Bool := suf.data.isSuffixOf s.data

/-- Python's whitespace `s.split()` (empty fields dropped). -/
def pySplitWs (s : String) : List String :=
  ((s.data.foldr (fun c acc =>
      if Char.isWhitespace c then [] :: acc
      else match acc with
        | [] => [[c]]
        | w :: ws => (c :: w) :: ws) []).filter (fun w => w ≠ [])).map
    (fun w => (⟨w⟩ : String))

/-- `sep.join(ws)`. -/
def pyJoin (sep : String) : List String → String
  | [] => ""
  | [w] => w
  | w :: ws => w ++ sep ++ pyJoin sep ws

/-- Python's `pat in s` substring test. -/
def containsSub (s pat : String) : Bool :=
  s.data.tails.any (fun t => pat.data.isPrefixOf t)

/-- Fuel-driven scanner behind Python's non-overlapping `str.count`. -/
def countSubGo (p : List Char) : Nat → List Char → Nat
  | 0, _ => 0
  | _, [] => 0
  | fuel + 1, l@(_ :: tl) =>
    if p.isPrefixOf l then 1 + countSubGo p fuel (l.drop p.length)
    else countSubGo p fuel tl

/-- Python's `s.count(pat)` (non-overlapping occurrences; an empty
pattern counts `len(s) + 1` matches, as in CPython). -/
def countSubstr (s pat : String) : Nat :=
  if pat = "" then s.length + 1 else countSubGo pat.data (s.data.length + 1) s.data

/-- Python's `" ".join(s.split())`: collapse whitespace runs to single
spaces and strip the ends. -/
def normWs (s : String) : String :=
  pyJoin " " (pySplitWs s)

/-- `%.2f` rendering of a rational (Python rounds half to even). -/
def twoDecimals (q : ℚ) : String :=
  let c := pythonRound (q * 100)
  let frac := (c % 100).toNat
  toString (c / 100) ++ "." ++ (if frac < 10 then "0" else "") ++ toString frac

/-! ### `analyze_html_size` -/

/-- The body of `analyze_html_size` after `html.encode("utf-8")`:
thresholds on `size_kb = byteLen / 1024`. -/
def analyze_html_size_core (byteLen : Nat) : CheckResult :=
  let size_kb : ℚ := (byteLen : ℚ) / 1024
  if size_kb < 100 then
    { status := "passed"
      description := "HTML size is optimal at " ++ twoDecimals size_kb ++ " KB." }
  else if size_kb < 300 then
    { status := "warning"
      description := "HTML size is moderately large at " ++ twoDecimals size_kb ++ " KB." }
  else
    { status := "failed"
      description := "HTML size is too large at " ++ twoDecimals size_kb ++
        " KB. This can impact loading time and crawl efficiency." }

/-- `analyze_html_size` from `app/seo/seo_analyzer.py`: measure the UTF-8
encoded byte length of the document. -/
def analyze_html_size (html : String) : CheckResult :=
  analyze_html_size_core html.utf8ByteSize

theorem utf8Len_replicate_a (n : Nat) :
    String.utf8Len (List.replicate n 'a') = n := by
  induction n with
  | zero => rfl
  | succ k ih =>
    have ha : Char.utf8Size 'a' = 1 := rfl
    simp [List.replicate_succ, ih, ha]

/-- An HTML document of exactly 300 KB (307200 one-byte characters). -/
def html300KB : String := ⟨List.replicate 307200 'a'⟩

/-- C8 fails at the upper endpoint: a document of exactly 300 KB is
classified `failed`, not `warning` — the source tests `size_kb < 300`,
so the 300 KB endpoint falls into the failed branch. -/
theorem C8_counterexample :
    html300KB.utf8ByteSize = 300 * 1024 ∧
    (analyze_html_size html300KB).status = "failed" ∧
    (analyze_html_size html300KB).status ≠ "warning" := by
  have hb : html300KB.utf8ByteSize = 307200 := by
    show String.utf8ByteSize ⟨List.replicate 307200 'a'⟩ = 307200
    rw [String.utf8ByteSize_mk, utf8Len_replicate_a]
  have hc : (analyze_html_size html300KB).status = "failed" := by
    rw [analyze_html_size, hb]
    have h1 : ¬ ((307200 : ℚ) / 1024 < 100) := by norm_num
    have h2 : ¬ ((307200 : ℚ) / 1024 < 300) := by norm_num
    simp [analyze_html_size_core, h1, h2]
  exact ⟨hb, hc, by rw [hc]; decide⟩

/-- C8 amended: `analyze_html_size` measures the UTF-8 encoded byte
length; below 100 KB is `passed`, from 100 KB up to but excluding 300 KB
is `warning`, and 300 KB or more is `failed` (both comparisons are
strict less-than in the source). -/
theorem C8_html_size_thresholds (html : String) :
    (analyze_html_size html).status =
      (if html.utf8ByteSize < 100 * 1024 then "passed"
       else if html.utf8ByteSize < 300 * 1024 then "warning"
       else "failed") := by
  have h1 : ((html.utf8ByteSize : ℚ) / 1024 < 100) ↔
      (html.utf8ByteSize < 100 * 1024) := by
    rw [div_lt_iff₀ (by norm_num : (0:ℚ) < 1024)]
    norm_cast
  have h2 : ((html.utf8ByteSize : ℚ) / 1024 < 300) ↔
      (html.utf8ByteSize < 300 * 1024) := by
    rw [div_lt_iff₀ (by norm_num : (0:ℚ) < 1024)]
    norm_cast
  simp only [analyze_html_size, analyze_html_size_core]
  by_cases hb1 : html.utf8ByteSize < 100 * 1024
  · simp [h1.mpr hb1, hb1]
  · by_cases hb2 : html.utf8ByteSize < 300 * 1024
    · simp [h1, hb1, h2.mpr hb2, hb2]
    · simp [h1, h2, hb1, hb2]

/-- `C8_html_size_thresholds` at a concrete one-character document. -/
theorem C8_html_size_thresholds_witness :
    (analyze_html_size ⟨['a']⟩).status = "passed" := by
  have h := C8_html_size_thresholds ⟨['a']⟩
  rw [h]
  decide

/-! ### `analyze_heading_structure` -/

/-- The result dictionary of the heading-structure analyzer: the base
fields plus the three analyzer-specific fields it always attaches. -/
structure HeadingCheck where
  status : String
  description : String
  heading_order : List String
  missing_levels : List String
  out_of_order : Bool
deriving Repr, DecidableEq

def headingName (l : Nat) : String := "h" ++ toString l

/-- The out-of-order scan: a level that increases by more than 1 from the
previous heading (ignoring the very first, `last == 0`). -/
def outOfOrderScan : Nat → List Nat → Bool
  | _, [] => false
  | last, level :: rest =>
    if level - last > 1 ∧ last ≠ 0 then true
    else outOfOrderScan level rest

/-- The missing-level loop: `range(1, max + 1)` filtered by absence from
`used_levels`, rendered as heading names. -/
def missingLevels (used_levels : List Nat) (maxL : Nat) : List String :=
  ((List.range' 1 maxL).filter (fun i => ! used_levels.contains i)).map headingName

/-- `analyze_heading_structure` over the document-order list of numeric
heading levels (`int(tag.name[1])` for each h1..h6 element).  The source
computes `max(used_levels)` before its decision logic, so an empty level
list raises `ValueError` (modelled as `Except.error`); `used_levels` is
`sorted(set(...))` in the source — only membership and the maximum are
consumed, so it is embedded as `dedup` without the sort. -/
def analyze_heading_structure (levels : List Nat) : Except String HeadingCheck :=
  match levels.dedup.max? with
  | none => Except.error "ValueError: max() arg is an empty sequence"
  | some maxL =>
    let heading_sequence := levels.map headingName
    let missing_levels := missingLevels levels.dedup maxL
    let out_of_order := outOfOrderScan 0 levels
    if heading_sequence = [] then
      Except.ok
        { status := "failed"
          description := "No heading tags (h1-h6) found on the page."
          heading_order := []
          missing_levels := ["h1", "h2", "h3", "h4", "h5", "h6"]
          out_of_order := false }
    else if out_of_order ∨ missing_levels ≠ [] then
      Except.ok
        { status := "warning"
          description := "Heading tags are either out of order or have skipped levels."
          heading_order := heading_sequence
          missing_levels := missing_levels
          out_of_order := out_of_order }
    else
      Except.ok
        { status := "passed"
          description := "Heading tags are well-structured and follow a logical hierarchy."
          heading_order := heading_sequence
          missing_levels := []
          out_of_order := false }

/-- C4: on a document with no h1-h6 headings the analyzer raises instead
of returning — `max(used_levels)` is evaluated on an empty sequence
before the empty-sequence `failed` branch can fire, so that branch is
dead code and no Check Result is produced. -/
theorem C4_heading_empty_raises :
    analyze_heading_structure [] =
      Except.error "ValueError: max() arg is an empty sequence" ∧
    (∀ r : HeadingCheck, analyze_heading_structure [] ≠ Except.ok r) := by
  refine ⟨rfl, ?_⟩
  intro r h
  rw [show analyze_heading_structure [] =
        Except.error "ValueError: max() arg is an empty sequence" from rfl] at h
  exact Except.noConfusion h

/-! ### `analyze_meta` -/

/-- A `<meta>` element: the three attributes the analyzer reads. -/
structure MetaTag where
  name : Option String
  property : Option String
  content : Option String
deriving Repr, DecidableEq

/-- `tag.has_attr("content") and tag["content"].strip()`. -/
def contentOk (t : MetaTag) : Bool :=
  match t.content with
  | some c => pyStrip c ≠ ""
  | none => false

def selNameDescription (t : MetaTag) : Bool := t.name == some "description"
def selPropOgDescription (t : MetaTag) : Bool := t.property == some "og:description"
def selPropDescription (t : MetaTag) : Bool := t.property == some "description"
def selNameTwitterDescription (t : MetaTag) : Bool := t.name == some "twitter:description"

/-- `CANDIDATE_SELECTORS`, in source order. -/
def metaSelectors : List (MetaTag → Bool) :=
  [selNameDescription, selPropOgDescription, selPropDescription,
   selNameTwitterDescription]

/-- The selection loop of `analyze_meta`: for each selector `soup.find`
yields the first matching tag in document order, and the first selector
whose first match carries non-empty content wins. -/
def metaPick (tags : List MetaTag) : Option MetaTag :=
  metaSelectors.findSome? (fun sel =>
    match tags.find? sel with
    | some t => if contentOk t then some t else none
    | none => none)

/-- Membership test building `meta_descriptions` (all candidate tags). -/
def isMetaDescriptionTag (t : MetaTag) : Bool :=
  t.name == some "description" ||
  (t.property == some "description" || t.property == some "og:description") ||
  t.name == some "twitter:description"

def meta_descriptions (tags : List MetaTag) : List MetaTag :=
  tags.filter isMetaDescriptionTag

def MIN_LENGTH : Nat := 50
def MAX_LENGTH : Nat := 160

/-- `analyze_meta` from `app/seo/seo_analyzer.py` over the document-order
list of `<meta>` tags. -/
def analyze_meta (tags : List MetaTag) : CheckResult :=
  match metaPick tags with
  | none =>
    if meta_descriptions tags ≠ [] then
      { status := "warning"
        description :=
          "Meta description tags found but none have a valid content attribute." }
    else
      { status := "failed"
        description := "No meta description was found for your page." }
  | some meta =>
    let meta_content := normWs (meta.content.getD "")
    let length := meta_content.length
    if length < MIN_LENGTH then
      { status := "warning"
        description := "Meta description is too short (" ++ toString length ++
          " characters). Recommended is 50-160." }
    else if length > MAX_LENGTH then
      { status := "warning"
        description := "Meta description is too long (" ++ toString length ++
          " characters). It may be truncated in search results." }
    else
      { status := "passed"
        description := "Meta description is present and optimal (" ++
          toString length ++ " characters)." }

/-- Two description metas: the first has empty content, the second a
100-character content. -/
def metaEx : List MetaTag :=
  [⟨some "description", none, some ""⟩,
   ⟨some "description", none, some (String.mk (List.replicate 100 'x'))⟩]

/-- A single description meta with 100-character content. -/
def metaEx100 : List MetaTag :=
  [⟨some "description", none, some (String.mk (List.replicate 100 'x'))⟩]

/-- C7 fails on the code: in `metaEx` a candidate description tag with a
valid 100-character content exists (so the claim demands it be selected
and `passed`), but `soup.find` only ever inspects the first document-order
match per selector — the empty first tag blocks the selector, and the
analyzer answers `warning` as if no candidate had content. -/
theorem C7_counterexample :
    (metaEx.filter (fun t => isMetaDescriptionTag t && contentOk t)).length = 1 ∧
    (normWs (String.mk (List.replicate 100 'x'))).length = 100 ∧
    (analyze_meta metaEx).status = "warning" := by
  refine ⟨by decide, by decide, ?_⟩
  decide

theorem findSome?_pick_mem (sels : List (MetaTag → Bool))
    (tags : List MetaTag) (t : MetaTag)
    (h : sels.findSome? (fun sel =>
        match tags.find? sel with
        | some u => if contentOk u then some u else none
        | none => none) = some t) :
    ∃ sel, sel ∈ sels ∧ tags.find? sel = some t ∧ contentOk t = true := by
  induction sels with
  | nil => simp [List.findSome?] at h
  | cons sel rest ih =>
    rw [List.findSome?_cons] at h
    cases hf : tags.find? sel with
    | none =>
      rw [hf] at h
      obtain ⟨s, hs, hfind, hok⟩ := ih h
      exact ⟨s, List.mem_cons_of_mem sel hs, hfind, hok⟩
    | some u =>
      by_cases hc : contentOk u = true
      · have hut : u = t := by
          simp [hf, hc] at h
          exact h
        subst hut
        exact ⟨sel, List.mem_cons_self sel rest, hf, hc⟩
      · simp only [hf, hc, if_false, Bool.false_eq_true] at h
        obtain ⟨s, hs, hfind, hok⟩ := ih h
        exact ⟨s, List.mem_cons_of_mem sel hs, hfind, hok⟩

theorem metaPick_some (tags : List MetaTag) (t : MetaTag)
    (h : metaPick tags = some t) :
    t ∈ tags ∧ contentOk t = true ∧
    (tags.find? selNameDescription = some t ∨
     tags.find? selPropOgDescription = some t ∨
     tags.find? selPropDescription = some t ∨
     tags.find? selNameTwitterDescription = some t) := by
  obtain ⟨sel, hsel, hfind, hok⟩ := findSome?_pick_mem metaSelectors tags t h
  have hmem : t ∈ tags := List.mem_of_find?_eq_some hfind
  refine ⟨hmem, hok, ?_⟩
  simp only [metaSelectors, List.mem_cons, List.not_mem_nil, or_false] at hsel
  rcases hsel with rfl | rfl | rfl | rfl
  · exact Or.inl hfind
  · exact Or.inr (Or.inl hfind)
  · exact Or.inr (Or.inr (Or.inl hfind))
  · exact Or.inr (Or.inr (Or.inr hfind))

theorem metaPick_candidates_nonempty (tags : List MetaTag) (t : MetaTag)
    (h : metaPick tags = some t) : meta_descriptions tags ≠ [] := by
  obtain ⟨hm, _, hsel⟩ := metaPick_some tags t h
  have hcand : isMetaDescriptionTag t = true := by
    rcases hsel with hf | hf | hf | hf <;>
      have := List.find?_some hf <;>
      simp only [selNameDescription, selPropOgDescription, selPropDescription,
        selNameTwitterDescription] at this <;>
      simp [isMetaDescriptionTag, this]
  have : t ∈ meta_descriptions tags := by
    simp only [meta_descriptions, List.mem_filter]
    exact ⟨hm, hcand⟩
  intro hnil
  rw [hnil] at this
  exact absurd this (List.not_mem_nil t)

/-- C7 amended: for each selector in the fixed priority order only the
first document-order matching tag is inspected, and the first selector
whose first match has non-empty stripped content wins; no candidate tag at
all gives `failed`; candidate tags present but no selector's first match
usable gives `warning`; for a selected tag, whitespace-normalized content
length below 50 or above 160 gives `warning`, otherwise `passed` — a
single candidate of exactly 100 characters passes. -/
theorem C7_meta_selection (tags : List MetaTag) :
    ((analyze_meta tags).status = "failed" ↔ meta_descriptions tags = []) ∧
    (metaPick tags = none → meta_descriptions tags ≠ [] →
      (analyze_meta tags).status = "warning") ∧
    (∀ t, metaPick tags = some t →
      contentOk t = true ∧
      (tags.find? selNameDescription = some t ∨
       tags.find? selPropOgDescription = some t ∨
       tags.find? selPropDescription = some t ∨
       tags.find? selNameTwitterDescription = some t) ∧
      ((analyze_meta tags).status = "passed" ↔
        MIN_LENGTH ≤ (normWs (t.content.getD "")).length ∧
          (normWs (t.content.getD "")).length ≤ MAX_LENGTH)) ∧
    (analyze_meta metaEx100).status = "passed" := by
  refine ⟨?_, ?_, ?_, by decide⟩
  · cases hp : metaPick tags with
    | none =>
      by_cases hc : meta_descriptions tags = []
      · simp [analyze_meta, hp, hc]
      · simp [analyze_meta, hp, hc]
    | some t =>
      have hne := metaPick_candidates_nonempty tags t hp
      simp only [analyze_meta, hp]
      constructor
      · intro hst
        exfalso
        split_ifs at hst <;> simp_all
      · intro hnil
        exact absurd hnil hne
  · intro hp hne
    simp [analyze_meta, hp, hne]
  · intro t hp
    obtain ⟨_, hc, hsel⟩ := metaPick_some tags t hp
    refine ⟨hc, hsel, ?_⟩
    simp only [analyze_meta, hp]
    by_cases hlt : (normWs (t.content.getD "")).length < MIN_LENGTH
    · rw [if_pos hlt]
      constructor
      · intro hst; exact absurd hst (by simp)
      · intro ⟨hb, _⟩; omega
    · rw [if_neg hlt]
      by_cases hgt : (normWs (t.content.getD "")).length > MAX_LENGTH
      · rw [if_pos hgt]
        constructor
        · intro hst; exact absurd hst (by simp)
        · intro ⟨_, hb⟩; omega
      · rw [if_neg hgt]
        constructor
        · intro _; omega
        · intro _; rfl

/-- `C7_meta_selection` at the concrete reports `metaEx` and `metaEx100`:
the no-usable-candidate branch answers `warning` and the 100-character
candidate passes. -/
theorem C7_meta_selection_witness :
    (analyze_meta metaEx).status = "warning" ∧
    (analyze_meta metaEx100).status = "passed" := by
  have h := C7_meta_selection metaEx
  exact ⟨h.2.1 (by decide) (by decide), (C7_meta_selection metaEx100).2.2.2⟩

/-! ### `analyze_links` and its link-validation sub-scanner -/

/-- An `<a>` element: its `href` attribute and its `get_text(strip=True)`
value. -/
structure ATag where
  href : Option String
  text : String
deriving Repr, DecidableEq

/-- The HTTP world the link prober sees: `none` models a raised
`requests` exception, `some c` a response with status code `c`
(`allow_redirects=True`, so `c` is the final status). -/
structure LinkWorld where
  headReq : String → Option Nat
  getReq : String → Option Nat

/-- The GET fallback inside `check_link`: `raise_for_status` raises on a
status of 400 or more, which the handler converts to "broken". -/
def checkGet (w : LinkWorld) (url : String) : Bool :=
  match w.getReq url with
  | some c => c < 400
  | none => false

/-- `check_link` (HEAD first, GET on any HEAD failure); `true` means the
URL was judged valid. -/
def check_link (w : LinkWorld) (url : String) : Bool :=
  match w.headReq url with
  | some c => if c < 400 then true else checkGet w url
  | none => checkGet w url

/-- `not href or href.strip().startswith(("#", "mailto:", "tel:", "javascript:"))`
(the `not href` part is handled at the call site for `None`). -/
def skipHref (href : String) : Bool :=
  href = "" || pyStartsWith (pyStrip href) "#" ||
  pyStartsWith (pyStrip href) "mailto:" ||
  pyStartsWith (pyStrip href) "tel:" ||
  pyStartsWith (pyStrip href) "javascript:"

/-- The `urls_to_check` list: resolved URL plus anchor text for every
anchor surviving the filter, in document order.  `urljoin` is the Python
standard-library resolver, taken as a collaborator parameter. -/
def urls_to_check (urljoin : String → String → String) (base : String)
    (aTags : List ATag) : List (String × String) :=
  aTags.filterMap (fun a =>
    match a.href with
    | none => none
    | some href =>
      if skipHref href then none
      else some (urljoin base (pyStrip href),
        if a.text = "" then "[No anchor text]" else a.text))

/-- The URLs actually probed: the first `min 20 _` entries. -/
def probedUrls (urljoin : String → String → String) (base : String)
    (aTags : List ATag) : List String :=
  let urls := urls_to_check urljoin base aTags
  (urls.take (min 20 urls.length)).map Prod.fst

/-- The link-validation stage of `analyze_links`: pre-categorization by
host comparison (`netloc` is the standard-library URL parser's host
accessor, a collaborator parameter), probing of the first
`min 20 _` resolved URLs, and removal of broken URLs from their
internal/external bucket (first occurrence, in probe order).  Returns
`(internal, external, broken)`. -/
def link_stats (urljoin : String → String → String) (netloc : String → String)
    (w : LinkWorld) (base : String) (aTags : List ATag) :
    List String × List String × List String :=
  let domain := netloc base
  let urls := urls_to_check urljoin base aTags
  let internal0 := (urls.map Prod.fst).filter (fun u => netloc u == domain)
  let external0 := (urls.map Prod.fst).filter (fun u => ! (netloc u == domain))
  let check_limit := min 20 urls.length
  let probed := urls.take check_limit
  let brokenPairs := probed.filter (fun u => ! check_link w u.1)
  let buckets := brokenPairs.foldl (fun acc u =>
    if acc.1.contains u.1 then (acc.1.erase u.1, acc.2)
    else if acc.2.contains u.1 then (acc.1, acc.2.erase u.1)
    else acc) (internal0, external0)
  (buckets.1, buckets.2, brokenPairs.map Prod.fst)

/-- `ratio` rendered as Python's `{:.0%}`. -/
def pctStr (q : ℚ) : String := toString (pythonRound (q * 100)) ++ "%"

/-- `analyze_links` from `app/seo/seo_analyzer.py`. -/
def analyze_links (urljoin : String → String → String) (netloc : String → String)
    (w : LinkWorld) (base : String) (aTags : List ATag) : CheckResult :=
  if aTags = [] then
    { status := "failed"
      description := "No usable links found. A page should guide users through relevant internal and external pages." }
  else
    let s := link_stats urljoin netloc w base aTags
    let total := s.1.length + s.2.1.length + s.2.2.length
    let total_internal := s.1.length
    let total_external := s.2.1.length
    let total_broken := s.2.2.length
    if total_broken > 0 then
      { status := "warning"
        description := toString total_broken ++
          " potentially broken link(s) detected. Internal: " ++
          toString total_internal ++ ", External: " ++ toString total_external ++
          ", Potentially broken: " ++ toString total_broken }
    else if total > 0 then
      let internal_ratio : ℚ := (total_internal : ℚ) / (total : ℚ)
      if internal_ratio < 2/5 then
        { status := "warning"
          description := "Low internal link ratio: " ++ pctStr internal_ratio ++
            ". Internal: " ++ toString total_internal ++ ", External: " ++
            toString total_external ++ ", Broken: " ++ toString total_broken }
      else
        { status := "passed"
          description := "Healthy link profile. Internal: " ++
            toString total_internal ++ ", External: " ++ toString total_external ++
            ", Broken: " ++ toString total_broken }
    else
      { status := "failed"
        description := "No usable links found after filtering out anchors and invalid URLs." }

theorem check_link_congr (w w' : LinkWorld) (u : String)
    (h1 : w.headReq u = w'.headReq u) (h2 : w.getReq u = w'.getReq u) :
    check_link w u = check_link w' u := by
  unfold check_link checkGet
  rw [h1, h2]

theorem link_stats_congr (urljoin : String → String → String)
    (netloc : String → String) (w w' : LinkWorld) (base : String)
    (aTags : List ATag)
    (hagree : ∀ u ∈ probedUrls urljoin base aTags,
      w.headReq u = w'.headReq u ∧ w.getReq u = w'.getReq u) :
    link_stats urljoin netloc w base aTags =
      link_stats urljoin netloc w' base aTags := by
  unfold link_stats
  have hfilter :
      ((urls_to_check urljoin base aTags).take
          (min 20 (urls_to_check urljoin base aTags).length)).filter
        (fun u => ! check_link w u.1) =
      ((urls_to_check urljoin base aTags).take
          (min 20 (urls_to_check urljoin base aTags).length)).filter
        (fun u => ! check_link w' u.1) := by
    apply List.filter_congr
    intro u hu
    have hmem : u.1 ∈ probedUrls urljoin base aTags := by
      unfold probedUrls
      exact List.mem_map_of_mem Prod.fst hu
    obtain ⟨h1, h2⟩ := hagree u.1 hmem
    rw [check_link_congr w w' u.1 h1 h2]
  simp only [hfilter]

/-- Example world and document for the 25-anchor scenario: 25 usable
same-host anchors (plus three skipped ones), with two of the first 20
URLs answering 404 to both HEAD and GET. -/
def exBase : String := "http://in.example/"

def exUrl (i : Nat) : String := "http://in.example/p" ++ toString i

def exATags : List ATag :=
  [⟨some "#top", "skip"⟩, ⟨some "mailto:a@b.c", "skip"⟩, ⟨none, "skip"⟩] ++
    (List.range 25).map (fun i => ⟨some (exUrl (i + 1)), "t"⟩)

def exUrljoin : String → String → String := fun _ href => href

def exNetloc : String → String :=
  fun u => if pyStartsWith u "http://in.example/" then "in.example" else "out.example"

def exWorld : LinkWorld :=
  { headReq := fun u => if u = exUrl 3 || u = exUrl 7 then some 404 else some 200
    getReq := fun u => if u = exUrl 3 || u = exUrl 7 then some 404 else some 200 }

/-- C5: the link-validation logic probes at most the first 20 resolved
URLs — the analyzer result is unchanged by any modification of the HTTP
world outside that prefix; a probed URL is broken exactly when both the
HEAD and the GET attempt fail or return status 400 or more; the broken
list is drawn from the probed prefix only; and on the concrete 25-anchor
page (hrefs that are empty or start with a skip prefix excluded) with two
of the first 20 URLs returning 404, the scan reports 2 broken links,
keeps the unprobed entries 21-25 classified by host comparison, and the
analyzer answers `warning`. -/
theorem C5_link_probe_cap (urljoin : String → String → String)
    (netloc : String → String) (w w' : LinkWorld) (base : String)
    (aTags : List ATag)
    (hagree : ∀ u ∈ probedUrls urljoin base aTags,
      w.headReq u = w'.headReq u ∧ w.getReq u = w'.getReq u) :
    analyze_links urljoin netloc w base aTags =
      analyze_links urljoin netloc w' base aTags ∧
    (∀ ww : LinkWorld, ∀ url : String,
      check_link ww url = false ↔
        ((∀ c, ww.headReq url = some c → 400 ≤ c) ∧
         (∀ c, ww.getReq url = some c → 400 ≤ c))) ∧
    (link_stats urljoin netloc w base aTags).2.2 =
      (probedUrls urljoin base aTags).filter (fun u => ! check_link w u) ∧
    ((urls_to_check exUrljoin exBase exATags).length = 25 ∧
     (link_stats exUrljoin exNetloc exWorld exBase exATags).2.2.length = 2 ∧
     (link_stats exUrljoin exNetloc exWorld exBase exATags).1.length = 23 ∧
     exUrl 25 ∈ (link_stats exUrljoin exNetloc exWorld exBase exATags).1 ∧
     (analyze_links exUrljoin exNetloc exWorld exBase exATags).status = "warning") := by
  refine ⟨?_, ?_, ?_, ?_⟩
  · unfold analyze_links
    rw [link_stats_congr urljoin netloc w w' base aTags hagree]
  · intro ww url
    unfold check_link
    cases hh : ww.headReq url with
    | none =>
      show checkGet ww url = false ↔ _
      unfold checkGet
      cases hg : ww.getReq url with
      | none =>
        constructor
        · intro _
          exact ⟨fun c hc => Option.noConfusion hc, fun c hc => Option.noConfusion hc⟩
        · intro _
          rfl
      | some c =>
        constructor
        · intro hf
          refine ⟨fun c' hc' => Option.noConfusion hc', fun c' hc' => ?_⟩
          obtain rfl : c = c' := Option.some.inj hc'
          have : ¬ c < 400 := of_decide_eq_false hf
          omega
        · intro hcon
          have h := hcon.2 c rfl
          exact decide_eq_false (by omega)
    | some c =>
      show (if c < 400 then true else checkGet ww url) = false ↔ _
      by_cases hc : c < 400
      · rw [if_pos hc]
        constructor
        · intro hf
          exact absurd hf (by simp)
        · intro hcon
          have := hcon.1 c rfl
          omega
      · rw [if_neg hc]
        unfold checkGet
        cases hg : ww.getReq url with
        | none =>
          constructor
          · intro _
            refine ⟨fun c' hc' => ?_, fun c' hc' => Option.noConfusion hc'⟩
            obtain rfl : c = c' := Option.some.inj hc'
            omega
          · intro _
            rfl
        | some d =>
          constructor
          · intro hf
            have hd : ¬ d < 400 := of_decide_eq_false hf
            refine ⟨fun c' hc' => ?_, fun c' hc' => ?_⟩
            · obtain rfl : c = c' := Option.some.inj hc'
              omega
            · obtain rfl : d = c' := Option.some.inj hc'
              omega
          · intro hcon
            have h := hcon.2 d rfl
            exact decide_eq_false (by omega)
  · unfold link_stats probedUrls
    simp only [List.filter_map]
    rfl
  · refine ⟨by decide, by decide, by decide, by decide, by decide⟩

/-- `C5_link_probe_cap` applied at the example world (agreement hypothesis
discharged trivially with `w = w'`): the 25-anchor scenario evaluated. -/
theorem C5_link_probe_cap_witness :
    (link_stats exUrljoin exNetloc exWorld exBase exATags).2.2.length = 2 ∧
    (analyze_links exUrljoin exNetloc exWorld exBase exATags).status = "warning" := by
  have h := C5_link_probe_cap exUrljoin exNetloc exWorld exWorld exBase exATags
    (fun u _ => ⟨rfl, rfl⟩)
  exact ⟨h.2.2.2.2.1, h.2.2.2.2.2.2.2⟩

/-! ### The remaining analyzers of the catalog -/

/-- `analyze_keywords`: the `soup is None or has no get_text` guard gives
`failed`, otherwise the nltk frequency listing (external library work,
not modelled) is attached to a `passed` result. -/
def analyze_keywords (soup : Option Unit) : CheckResult :=
  match soup with
  | none =>
    { status := "failed"
      description := "Could not extract text from the provided HTML." }
  | some _ =>
    { status := "passed"
      description := "A list of keywords that appear frequently in the text of your content." }

/-- `check_title_tag` over the text of the `<title>` element (`none` when
the tag is absent). -/
def check_title_tag (title : Option String) : CheckResult :=
  if title = none ∨ pyStrip (title.getD "") = "" then
    { status := "failed"
      description := "No title tag found or title is empty." }
  else
    let title_text := pyStrip (title.getD "")
    let title_length := title_text.length
    if title_length < 30 then
      { status := "warning"
        description := "Title tag is too short (" ++ toString title_length ++
          " characters). Ideal length is 50-60 characters." }
    else if title_length > 60 then
      { status := "warning"
        description := "Title tag is too long (" ++ toString title_length ++
          " characters). It may be truncated in search results." }
    else
      let title_lower := pyLower title_text
      if countSubstr title_lower " - " > 1 ∨ countSubstr title_lower " | " > 1 then
        { status := "warning"
          description := "Title tag contains multiple separators, which may look keyword-stuffed." }
      else
        { status := "passed"
          description := "Title tag is well-optimized with " ++
            toString title_length ++ " characters." }

/-- `analyze_h1s` over the serialized `<h1>` elements. -/
def analyze_h1s (headings : List String) : CheckResult :=
  let count := headings.length
  if count = 0 then
    { status := "failed"
      description := "No <h1> tag found on the page." }
  else if count = 1 then
    { status := "passed"
      description := "One <h1> tag found. Ideal for SEO." }
  else
    { status := "warning"
      description := toString count ++
        " <h1> tags found. It is recommended to use only one <h1> tag per page for clear hierarchy." }

def redundant_words : List String := ["image", "photo", "pic", "picture", "img"]
def non_descriptive : List String := ["a", "-", "x"]

/-- The single pass of `analyze_images` over the images' `alt`
attributes: `(missing, redundant, short, alt_values)`. -/
def imgScan (alts : List (Option String)) : Nat × Nat × Nat × List String :=
  alts.foldl (fun acc alt =>
    match alt with
    | none => (acc.1 + 1, acc.2.1, acc.2.2.1, acc.2.2.2)
    | some a =>
      if pyStrip a = "" then (acc.1 + 1, acc.2.1, acc.2.2.1, acc.2.2.2)
      else
        let alt_clean := pyLower (pyStrip a)
        let vals := acc.2.2.2 ++ [alt_clean]
        if redundant_words.contains alt_clean then
          (acc.1, acc.2.1 + 1, acc.2.2.1, vals)
        else if alt_clean.length < 3 ∨ non_descriptive.contains alt_clean then
          (acc.1, acc.2.1, acc.2.2.1 + 1, vals)
        else (acc.1, acc.2.1, acc.2.2.1, vals)) (0, 0, 0, [])

/-- `analyze_images` over the `alt` attribute of each `<img>` element in
document order. -/
def analyze_images (alts : List (Option String)) : CheckResult :=
  let total := alts.length
  if total = 0 then
    { status := "warning"
      description := "No <img> tags found on the page." }
  else
    let scan := imgScan alts
    let missing := scan.1
    let redundant := scan.2.1
    let short := scan.2.2.1
    let vals := scan.2.2.2
    let duplicates := (vals.dedup.filter (fun v => vals.count v > 1)).length
    let issues : List String :=
      (if missing > 0 then [toString missing ++ " missing alt"] else []) ++
      (if redundant > 0 then [toString redundant ++ " redundant alt"] else []) ++
      (if short > 0 then [toString short ++ " very short/non-descriptive alt"] else []) ++
      (if duplicates > 0 then [toString duplicates ++ " duplicate alt text values"] else [])
    if issues = [] then
      { status := "passed"
        description := "All " ++ toString total ++
          " images have clear, descriptive alt attributes." }
    else
      { status := if missing > 0 ∨ redundant > 0 ∨ short > 0 then "warning" else "failed"
        description := "Issues detected with image alt attributes: " ++
          pyJoin ", " issues ++ "." }

/-- `analyze_lazy_loading` over the `loading` attribute of the `<img>`
and `<iframe>` elements in document order. -/
def analyze_lazy_loading (loadings : List (Option String)) : CheckResult :=
  let total := loadings.length
  if total = 0 then
    { status := "warning"
      description := "No <img> or <iframe> elements found for lazy loading analysis." }
  else
    let missing_count :=
      (loadings.filter (fun l => ! (pyLower (pyStrip (l.getD "")) == "lazy"))).length
    if missing_count = total then
      { status := "failed"
        description := "None of the <img> or <iframe> elements use lazy loading." }
    else if missing_count > 0 then
      { status := "warning"
        description := toString missing_count ++ " of " ++ toString total ++
          " image/iframe elements are missing loading=\"lazy\"." }
    else
      { status := "passed"
        description := "All " ++ toString total ++
          " <img> and <iframe> elements use lazy loading." }

/-- The canonical `<link>` element: its `href` and whether it sits inside
the `<head>` element. -/
structure CanonicalTag where
  href : Option String
  inHead : Bool
deriving Repr, DecidableEq

/-- `check_canonical`; `hasScheme` is `urlparse(href).scheme` truthiness,
a standard-library collaborator taken as a parameter. -/
def check_canonical (hasScheme : String → Bool) (headExists : Bool)
    (canonical : Option CanonicalTag) : CheckResult :=
  let canonical_href := canonical.bind (fun t => t.href)
  if canonical = none ∨ canonical_href = none ∨ canonical_href = some "" then
    { status := "failed"
      description := "No canonical URL tag found. This may lead to duplicate content issues." }
  else if headExists ∧ ¬ (canonical.map (fun t => t.inHead)).getD true then
    { status := "warning"
      description := "Canonical tag found, but not inside the <head> section." }
  else if ¬ hasScheme (canonical_href.getD "") then
    { status := "warning"
      description := "Canonical tag uses a relative URL: " ++ canonical_href.getD "" }
  else
    { status := "passed"
      description := "Canonical URL is set correctly: " ++ canonical_href.getD "" }

/-- `check_noindex` over the `content` attribute (default `""`) of each
`meta[name=robots|googlebot]` element. -/
def check_noindex (robotsMetaContents : List String) : CheckResult :=
  let noindex_tags := robotsMetaContents.filter (fun c => containsSub (pyLower c) "noindex")
  if noindex_tags ≠ [] then
    { status := "failed"
      description := "The page contains " ++ toString noindex_tags.length ++
        " meta tag(s) with a noindex directive, preventing it from being indexed by search engines." }
  else if robotsMetaContents.length > 1 then
    { status := "warning"
      description := "Multiple meta robots or googlebot tags found (" ++
        toString robotsMetaContents.length ++
        " total). This could lead to conflicting instructions for search engines." }
  else
    { status := "passed"
      description := "No noindex directive found. Your page is indexable by search engines." }

/-- Structural splitter on a single separator character (Python's
`str.split(sep)` semantics: `""` splits to `[""]`). -/
def splitCharGo (sep : Char) : List Char → List Char → List (List Char)
  | [], cur => [cur.reverse]
  | c :: cs, cur =>
    if c = sep then cur.reverse :: splitCharGo sep cs []
    else splitCharGo sep cs (c :: cur)

def splitChar (sep : Char) (s : String) : List String :=
  (splitCharGo sep s.data []).map (fun l => (⟨l⟩ : String))

/-- `content.strip().splitlines()` (the `\r` variants of Python's
splitlines are immaterial here: every consumer strips each line again). -/
def pyLines (t : String) : List String :=
  let s := pyStrip t
  if s = "" then [] else splitChar '\n' s

/-- `line.split(":", 1)[1]` for a line known to contain a colon. -/
def afterColon (s : String) : String :=
  ⟨(s.data.dropWhile (fun c => c != ':')).drop 1⟩

/-- `parse_robots_directives`: scan the lines tracking the current agent
(a falsy — empty — agent suppresses disallow collection) and collect
`(agent, disallow-value)` pairs; the defaultdict-of-lists is represented
by the pair list itself. -/
def parse_robots_directives (lines : List String) : List (String × String) :=
  (lines.foldl (fun (acc : Option String × List (String × String)) line =>
    let l := pyStrip line
    if pyStartsWith (pyLower l) "user-agent:" then
      (some (pyStrip (afterColon l)), acc.2)
    else if (match acc.1 with | some a => a != "" | none => false) &&
        pyStartsWith (pyLower l) "disallow:" then
      (acc.1, acc.2 ++ [(acc.1.getD "", pyStrip (afterColon l))])
    else acc) (none, [])).2

/-- `check_robots_txt`: `robots_url` is the
`{scheme}://{netloc}/robots.txt` string built by the standard-library URL
parser (collaborator); the response is `none` on a `requests` exception
and `some (status, body)` otherwise. -/
def check_robots_txt (robots_url : String) (resp : Option (Nat × String)) :
    CheckResult :=
  match resp with
  | none =>
    { status := "failed"
      description := "An error occurred while trying to access robots.txt: " }
  | some (status_code, content) =>
    let lines := pyLines content
    if status_code = 200 then
      if ¬ lines.any (fun line => containsSub line "User-agent") then
        { status := "warning"
          description := "robots.txt file is accessible but contains no User-agent directives." }
      else
        let directives := parse_robots_directives lines
        let has_disallow_all := directives.contains ("*", "/")
        let has_sitemap := lines.any (fun line => containsSub line "Sitemap:")
        if has_disallow_all then
          { status := "warning"
            description := "A robots.txt file is found, but it blocks all bots with Disallow: /." }
        else
          { status := if has_sitemap then "passed" else "warning"
            description := "A valid robots.txt file was found at " ++ robots_url ++ "." ++
              (if has_sitemap then "" else " However, no Sitemap directive was found.") }
    else if status_code = 404 then
      { status := "failed"
        description := "No robots.txt file was found. This may prevent search engines from knowing what to crawl or avoid." }
    else
      { status := "warning"
        description := "A robots.txt file was found but returned status code " ++
          toString status_code ++ "." }

/-- `analyze_schema_org`: `microdataCount` counts elements carrying both
`itemscope` and `itemtype`; `jsonLdValid` holds, per
`script[type=application/ld+json]` tag in document order, whether its body
parses (standard-library `json.loads`) to a dict containing `@context` or
`@type`. -/
def analyze_schema_org (microdataCount : Nat) (jsonLdValid : List Bool) :
    CheckResult :=
  let valid_count := (jsonLdValid.filter id).length
  if valid_count > 0 ∨ microdataCount > 0 then
    let format_used :=
      if valid_count > 0 ∧ microdataCount > 0 then "JSON-LD and Microdata"
      else if valid_count > 0 then "JSON-LD"
      else "Microdata"
    { status := "passed"
      description := "Schema.org structured data found (" ++ format_used ++ ")." }
  else if jsonLdValid ≠ [] then
    { status := "warning"
      description := "Found JSON-LD tags, but none appear to contain valid Schema.org metadata." }
  else
    { status := "failed"
      description := "No Schema.org metadata found. This may prevent rich snippets in search results." }

/-- A `<link>` element for the favicon scan: its `rel` token list (when
the attribute is present), its `href`, and whether its parent is the
`<head>` element. -/
structure LinkTag where
  relValues : Option (List String)
  href : Option String
  parentIsHead : Bool
deriving Repr, DecidableEq

/-- The collected favicon candidates: `link` tags whose `rel` contains
"icon" (case-insensitively), plus the explicit `/favicon.ico` link when
not already collected. -/
def favicon_tags_of (linkTags : List LinkTag) : List LinkTag :=
  let link_tags := linkTags.filter (fun t => t.relValues.isSome)
  let favicon_tags0 := link_tags.filter (fun t =>
    (t.relValues.getD []).any (fun r => containsSub (pyLower r) "icon"))
  let explicit_ico := linkTags.find? (fun t =>
    match t.href with
    | some h => h ≠ "" && pyEndsWith (pyStrip h) "/favicon.ico"
    | none => false)
  favicon_tags0 ++
    (match explicit_ico with
     | some t => if favicon_tags0.contains t then [] else [t]
     | none => [])

/-- The validation loop of `check_favicon`: the first candidate with a
truthy `href` decides. -/
def faviconPick (linkTags : List LinkTag) : Option LinkTag :=
  (favicon_tags_of linkTags).find? (fun t =>
    match t.href with | some h => h ≠ "" | none => false)

/-- `check_favicon`.  `msTileContent` is the
`meta[name=msapplication-TileImage]` element (`none` = absent, otherwise
its `content` attribute). -/
def check_favicon (soupPresent : Bool) (headExists : Bool)
    (linkTags : List LinkTag) (msTileContent : Option (Option String)) :
    CheckResult :=
  if ¬ soupPresent then
    { status := "failed"
      description := "No HTML content provided to check for favicon." }
  else if ¬ headExists then
    { status := "warning"
      description := "No <head> section found in the HTML. Cannot properly check for favicon." }
  else if (match msTileContent with | some (some c) => c != "" | _ => false) then
    { status := "passed"
      description := "Favicon found via Microsoft meta tag." }
  else
    match faviconPick linkTags with
    | some tag =>
      if ¬ tag.parentIsHead then
        { status := "warning"
          description := "Favicon found but not within the <head> section. This may reduce compatibility." }
      else
        { status := "passed"
          description := "Favicon found and correctly declared in the <head> section." }
    | none =>
      { status := "failed"
        description := "No favicon declared in the HTML. This may result in a blank browser tab icon." }

/-- `check_amp` over the `link[rel=amphtml]` element (`none` = absent,
otherwise its `href`). -/
def check_amp (ampLink : Option (Option String)) : CheckResult :=
  if (match ampLink with | some (some h) => h != "" | _ => false) then
    { status := "passed"
      description := "AMP version of the page is linked using <link rel=amphtml>." }
  else
    { status := "warning"
      description := "No AMP version found. While not mandatory, having an AMP version can improve mobile speed and visibility in mobile search results." }

/-- `check_http_redirect` over the response to `GET http://{domain}`
(`none` = exception; otherwise final URL and redirect history). -/
def check_http_redirect (resp : Option (String × List String)) : CheckResult :=
  match resp with
  | none =>
    { status := "failed"
      description := "Unable to perform HTTP to HTTPS redirect check due to an error: " }
  | some (final_url, _history) =>
    if pyStartsWith final_url "https://" then
      { status := "passed"
        description := "HTTP traffic is redirected to HTTPS at " ++ final_url ++ "." }
    else
      { status := "failed"
        description := "HTTP traffic is not redirected to HTTPS. This exposes your site to potential security risks." }

/-- `is_custom_404` on lowercased body text. -/
def is_custom_404 (content : String) : Bool :=
  containsSub content "404" || containsSub content "page not found" ||
  containsSub content "not be found"

/-- `check_404_page` over the response to the fabricated nonexistent
path. -/
def check_404_page (resp : Option (Nat × String)) : CheckResult :=
  match resp with
  | none =>
    { status := "failed"
      description := "Could not perform 404 page check due to an error: " }
  | some (status_code, text) =>
    let content := pyLower text
    if status_code = 404 then
      if is_custom_404 content then
        { status := "passed"
          description := "Custom 404 page is in place with appropriate messaging." }
      else
        { status := "warning"
          description := "Page returns 404 but content does not appear customized." }
    else if status_code = 200 then
      { status := "failed"
        description := "Invalid URL returned HTTP 200 instead of 404. This confuses search engines and users." }
    else
      { status := "warning"
        description := "Unexpected HTTP " ++ toString status_code ++
          " returned for an invalid URL. Check your error handling." }

/-- `check_text_compression` over the `Content-Encoding` response header
(`none` = exception; header absent = `some ""` via `get(..., "")`). -/
def check_text_compression (resp : Option String) : CheckResult :=
  match resp with
  | none =>
    { status := "failed"
      description := "Could not perform compression check due to an error: " }
  | some encHeader =>
    let encoding := pyStrip (pyLower encHeader)
    if containsSub encoding "br" then
      { status := "passed"
        description := "Server supports Brotli compression, which offers superior performance for modern browsers." }
    else if containsSub encoding "gzip" then
      { status := "passed"
        description := "Server supports Gzip compression, which effectively reduces text content size." }
    else
      { status := "failed"
        description := "No Brotli or Gzip compression detected. This may impact page load times, especially on slower networks." }

/-- The two BeautifulSoup search methods of `check_viewport_meta`: exact
`meta[name=viewport]` first, then a case-insensitive scan. -/
def viewportPick (metas : List MetaTag) : Option MetaTag :=
  match metas.find? (fun t => t.name == some "viewport") with
  | some t => some t
  | none =>
    metas.find? (fun t =>
      (t.name.getD "") != "" && pyLower (t.name.getD "") == "viewport")

/-- `check_viewport_meta` over the `<meta>` list; `rawMatch` is the raw
HTML regex fallback result (standard-library `re`, collaborator): the
matched tag text and its captured `content` group, consulted only when
both BeautifulSoup methods fail. -/
def check_viewport_meta (metas : List MetaTag) (rawMatch : Option (String × String)) :
    CheckResult :=
  match viewportPick metas with
  | some tag =>
    let content := pyStrip (pyLower (tag.content.getD ""))
    let width_ok := containsSub content "width=device-width"
    let scale_ok := containsSub content "initial-scale"
    if width_ok && scale_ok then
      { status := "passed"
        description := "The page contains a valid viewport meta tag optimized for responsive mobile viewing." }
    else
      { status := "warning"
        description := "Viewport meta tag is present but may be misconfigured or missing key attributes." }
  | none =>
    match rawMatch with
    | some (_tagStr, content) =>
      let width_ok := containsSub (pyLower content) "width=device-width"
      let scale_ok := containsSub (pyLower content) "initial-scale"
      if width_ok && scale_ok then
        { status := "passed"
          description := "The page contains a valid viewport meta tag optimized for responsive mobile viewing (detected via regex)." }
      else
        { status := "warning"
          description := "Viewport meta tag is present but may be misconfigured or missing key attributes (detected via regex)." }
    | none =>
      { status := "failed"
        description := "No viewport meta tag found. This can negatively affect mobile usability and SEO." }

/-- `check_social_meta` over the `<meta>` list. -/
def check_social_meta (metas : List MetaTag) : CheckResult :=
  let og_tags := metas.filter (fun t =>
    match t.property with | some p => pyStartsWith p "og:" | none => false)
  let twitter_tags := metas.filter (fun t =>
    match t.name with | some n => pyStartsWith n "twitter:" | none => false)
  if og_tags ≠ [] ∧ twitter_tags ≠ [] then
    { status := "passed"
      description := "Both Open Graph and Twitter Card meta tags are present for rich social sharing previews." }
  else if og_tags ≠ [] ∨ twitter_tags ≠ [] then
    { status := "warning"
      description := "Partial social meta tag support detected. Full coverage improves visibility on all platforms." }
  else
    { status := "failed"
      description := "No social media meta tags detected. Shared links may not display thumbnails or summaries on platforms like Facebook and Twitter." }

/-- `check_iframe_usage` over the serialized `<iframe>` elements, with
the source's default threshold 3. -/
def check_iframe_usage (iframes : List String) (threshold : Nat := 3) :
    CheckResult :=
  let iframe_count := iframes.length
  if iframe_count = 0 then
    { status := "passed"
      description := "No iframes found on the page. This is optimal for SEO and performance." }
  else if iframe_count ≤ threshold then
    { status := "warning"
      description := toString iframe_count ++
        " iframe(s) found. While acceptable, consider minimizing them for better performance." }
  else
    { status := "failed"
      description := toString iframe_count ++
        " iframes detected, which can hurt SEO, slow down rendering, and reduce accessibility." }

inductive AssetType
  | css
  | js
deriving Repr, DecidableEq

/-- Length of the longest run of non-whitespace characters
(`re.search(r"[^\s]\x7b100,\x7d", url)` succeeds iff this reaches 100). -/
def maxNonWsRun (l : List Char) : Nat :=
  (l.foldl (fun (acc : Nat × Nat) c =>
    if Char.isWhitespace c then (0, acc.2)
    else (acc.1 + 1, max acc.2 (acc.1 + 1))) (0, 0)).2

/-- The per-asset minification test of `analyze_minification`. -/
def isMinified (ext : String) (url : String) : Bool :=
  containsSub url (".min." ++ ext) || maxNonWsRun url.data ≥ 100

/-- `analyze_minification` over the external asset URLs of the requested
kind (`script[src]` values for js, `link[rel=stylesheet][href]` values
for css). -/
def analyze_minification (asset_type : AssetType) (srcs : List String) :
    CheckResult :=
  let ext := match asset_type with | .css => "css" | .js => "js"
  let extU := match asset_type with | .css => "CSS" | .js => "JS"
  let total_count := srcs.length
  let minified_count := (srcs.filter (isMinified ext)).length
  if total_count = 0 then
    { status := "warning"
      description := "No external " ++ extU ++ " files found to analyze for minification." }
  else
    let minified_ratio : ℚ := (minified_count : ℚ) / (total_count : ℚ)
    if minified_ratio = 1 then
      { status := "passed"
        description := "All " ++ toString total_count ++ " " ++ extU ++
          " files are minified." }
    else if minified_ratio ≥ 1/2 then
      { status := "warning"
        description := toString minified_count ++ "/" ++ toString total_count ++
          " " ++ extU ++ " files are minified. Some are not." }
    else
      { status := "failed"
        description := "Only " ++ toString minified_count ++ "/" ++
          toString total_count ++ " " ++ extU ++
          " files are minified. Most are not optimized." }

/-- `check_secure_connection` (the `except` arm is unreachable:
`str.startswith` cannot raise). -/
def check_secure_connection (final_url : String) : CheckResult :=
  if pyStartsWith final_url "https://" then
    { status := "passed"
      description := "The site uses HTTPS, ensuring secure communication." }
  else
    { status := "failed"
      description := "The site does not use HTTPS. This may pose a security risk and affect SEO." }

def suspicious_params : List String := ["sid", "sessionid", "utm_", "fbclid", "gclid"]

def isWordChar (c : Char) : Bool := c.isAlphanum || c = '_'

/-- `re.findall(r"\.\w+\.", path)` is non-empty. -/
def hasMultiExt (l : List Char) : Bool :=
  l.tails.any (fun t =>
    match t with
    | '.' :: rest =>
      let w := rest.takeWhile isWordChar
      w != [] && (match rest.drop w.length with | '.' :: _ => true | _ => false)
    | _ => false)

/-- `re.search(r"/\d+/?", path)` succeeds. -/
def hasNumericId (l : List Char) : Bool :=
  l.tails.any (fun t => match t with | '/' :: d :: _ => d.isDigit | _ => false)

/-- `check_url_structure` over the path and query of the parsed current
URL (`urlparse` is standard-library collaborator work; the analyzer
consumes only `parsed.path` and `parsed.query`). -/
def urlIssues (path query : String) : List String :=
  let query_params := if query = "" then [] else splitChar '&' query
  let has_suspicious_params := query_params.any (fun p =>
    suspicious_params.any (fun s => pyStartsWith p s))
  let has_uppercase := path.data.any Char.isUpper
  let has_spaces := path.data.contains ' '
  let has_underscores := path.data.contains '_'
  let has_multiple_extensions := hasMultiExt path.data
  let has_numeric_id := hasNumericId path.data
  let depth : Int :=
    if path = "/" then 0
    else ((splitChar '/' path).filter (fun p => p ≠ "")).length - 1
  (if has_suspicious_params then ["Contains tracking parameters or session IDs"] else []) ++
  (if has_uppercase then ["Contains uppercase letters"] else []) ++
  (if has_spaces then ["Contains spaces"] else []) ++
  (if has_underscores then ["Contains underscores"] else []) ++
  (if has_multiple_extensions then ["Contains multiple file extensions"] else []) ++
  (if has_numeric_id then ["Contains numeric IDs"] else []) ++
  (if depth > 3 then ["Deep URL structure (" ++ toString depth ++ " levels)"] else [])

def check_url_structure (path query : String) : CheckResult :=
  let issues := urlIssues path query
  if issues ≠ [] then
    { status := "warning"
      description := "URL structure has potential issues: " ++ pyJoin ", " issues }
  else
    { status := "passed"
      description := "URL structure follows SEO best practices." }

/-- A `<script src=...>` element for the page-speed scan. -/
structure ScriptTag where
  src : String
  asyncAttr : Bool
  deferAttr : Bool
deriving Repr, DecidableEq

/-- `{:.1f}` rendering of a rational. -/
def oneDecimal (q : ℚ) : String :=
  let c := pythonRound (q * 10)
  toString (c / 10) ++ "." ++ toString (c % 10).toNat

/-- `check_page_speed_indicators`: `htmlChars` is `len(html)` (character
count, unlike `analyze_html_size`, which measures encoded bytes);
`headScripts` are the `head script[src]` elements; `cssFileCount` counts
`link[rel=stylesheet]` elements. -/
def pageSpeedIssues (htmlChars : Nat) (inlineStyleCount : Nat)
    (headScripts : List ScriptTag) (cssFileCount : Nat)
    (jsFiles : List ScriptTag) : List String :=
  let html_size_kb : ℚ := (htmlChars : ℚ) / 1024
  let js_count := jsFiles.length
  let deferred_scripts := (jsFiles.filter (fun j => j.deferAttr || j.asyncAttr)).length
  let render_blocking_count :=
    (headScripts.filter (fun s => !s.asyncAttr && !s.deferAttr)).length + cssFileCount
  (if html_size_kb > 100 then
    ["Large HTML size: " ++ oneDecimal html_size_kb ++ "KB (recommended < 100KB)"]
   else []) ++
  (if inlineStyleCount > 3 then
    ["Multiple inline style blocks: " ++ toString inlineStyleCount ++ " found"]
   else []) ++
  (if render_blocking_count > 3 then
    ["Many render-blocking resources: " ++ toString render_blocking_count ++ " found"]
   else []) ++
  (if js_count > 15 then
    ["Too many JavaScript files: " ++ toString js_count ++ " found"]
   else []) ++
  (if (deferred_scripts : ℚ) < (js_count : ℚ) / 2 ∧ js_count > 5 then
    ["Only " ++ toString deferred_scripts ++ " of " ++ toString js_count ++
      " scripts use defer/async attributes"]
   else [])

def check_page_speed_indicators (htmlChars : Nat) (inlineStyleCount : Nat)
    (headScripts : List ScriptTag) (cssFileCount : Nat)
    (jsFiles : List ScriptTag) : CheckResult :=
  let issues := pageSpeedIssues htmlChars inlineStyleCount headScripts cssFileCount jsFiles
  if issues = [] then
    { status := "passed"
      description := "No significant page speed issues detected in the HTML structure." }
  else
    { status := "warning"
      description := "Potential page speed issues detected: " ++ pyJoin "; " issues }

/-! ### The orchestrator `analyze_url` and the HTTP view -/

/-- The page-fetch collaborator's successful outcome: response text and
final (post-redirect) URL.  The response headers are returned by
`fetch_page` but never consumed downstream, so they are projected away. -/
structure FetchResult where
  text : String
  finalUrl : String
deriving Repr, DecidableEq

/-- `fetch_page`: a missing or empty URL short-circuits to the failure
triple; otherwise the outcome is the network's answer (`none` models any
`requests` exception, including `raise_for_status` on a non-2xx). -/
def fetch_page (url : Option String) (netResp : Option FetchResult) :
    Option FetchResult :=
  match url with
  | none => none
  | some u => if u = "" then none else netResp

/-- The parsed-document context: every attribute projection the analyzer
pipeline reads from the BeautifulSoup tree, in document order where the
source iterates. -/
structure Soup where
  title : Option String
  metaTags : List MetaTag
  h1s : List String
  headingLevels : List Nat
  imgAlts : List (Option String)
  mediaLoadings : List (Option String)
  aTags : List ATag
  headExists : Bool
  canonical : Option CanonicalTag
  robotsMetaContents : List String
  viewportRaw : Option (String × String)
  iframes : List String
  microdataCount : Nat
  jsonLdValid : List Bool
  linkTags : List LinkTag
  msTileContent : Option (Option String)
  ampLink : Option (Option String)
  cssHrefs : List String
  inlineStyleCount : Nat
  headScripts : List ScriptTag
  cssFileCount : Nat
  jsFiles : List ScriptTag

/-- The outcomes of the auxiliary HTTP requests the analyzers make. -/
structure Worlds where
  robots_url : String
  robotsResp : Option (Nat × String)
  redirectResp : Option (String × List String)
  notFoundResp : Option (Nat × String)
  compressionResp : Option String
  linkWorld : LinkWorld

/-- The standard-library URL helpers the pipeline consumes, taken as
collaborator parameters. -/
structure StdLib where
  urljoin : String → String → String
  netloc : String → String
  hasScheme : String → Bool
  pathQuery : String → String × String

def HeadingCheck.toCheckResult (h : HeadingCheck) : CheckResult :=
  { status := h.status, description := h.description }

/-- The check-building block of `analyze_url`, in source order.  The
heading-structure analyzer can raise (see `analyze_heading_structure`);
no call is wrapped in a recovery block, so its exception aborts the whole
mapping — the `Except` bind models exactly that. -/
def runChecks (lib : StdLib) (soup : Soup) (html : String) (final_url : String)
    (w : Worlds) : Except String (List (String × CheckResult)) := do
  let https := check_secure_connection final_url
  let title := check_title_tag soup.title
  let meta_description := analyze_meta soup.metaTags
  let h1 := analyze_h1s soup.h1s
  let heading_structure ← analyze_heading_structure soup.headingLevels
  let html_size := analyze_html_size html
  let keywords := analyze_keywords (some ())
  let favicon := check_favicon true soup.headExists soup.linkTags soup.msTileContent
  let canonical := check_canonical lib.hasScheme soup.headExists soup.canonical
  let noindex := check_noindex soup.robotsMetaContents
  let mobile_friendly := check_viewport_meta soup.metaTags soup.viewportRaw
  let page_speed := check_page_speed_indicators html.length soup.inlineStyleCount
    soup.headScripts soup.cssFileCount soup.jsFiles
  let url_structure := check_url_structure (lib.pathQuery final_url).1
    (lib.pathQuery final_url).2
  let amp := check_amp soup.ampLink
  let http_redirect := check_http_redirect w.redirectResp
  let p404 := check_404_page w.notFoundResp
  let compression := check_text_compression w.compressionResp
  let iframe_usage := check_iframe_usage soup.iframes
  let images := analyze_images soup.imgAlts
  let lazy_loading := analyze_lazy_loading soup.mediaLoadings
  let social_tags := check_social_meta soup.metaTags
  let schema_org := analyze_schema_org soup.microdataCount soup.jsonLdValid
  let analyze_css := analyze_minification AssetType.css soup.cssHrefs
  let analyze_js := analyze_minification AssetType.js (soup.jsFiles.map (fun j => j.src))
  let robots_txt := check_robots_txt w.robots_url w.robotsResp
  let links := analyze_links lib.urljoin lib.netloc w.linkWorld final_url soup.aTags
  pure [("https", https), ("title", title), ("meta_description", meta_description),
    ("h1", h1), ("heading_structure", heading_structure.toCheckResult),
    ("analyze_html_size", html_size), ("keywords", keywords),
    ("check_favicon", favicon), ("canonical", canonical), ("noindex", noindex),
    ("mobile_friendly", mobile_friendly), ("page_speed", page_speed),
    ("url_structure", url_structure), ("check_amp", amp),
    ("check_http_redirect", http_redirect), ("check_404_page", p404),
    ("check_text_compression", compression), ("check_iframe_usage", iframe_usage),
    ("images", images), ("lazy_loading", lazy_loading),
    ("social_tags", social_tags), ("schema_org", schema_org),
    ("analyze_css", analyze_css), ("analyze_js", analyze_js),
    ("robots_txt", robots_txt), ("links", links)]

/-- The orchestrator's result envelope (`analysis_time`, a wall-clock
string, is excluded from the embedding). -/
structure Envelope where
  status : String
  url : Option String
  message : Option String
  checks : List (String × CheckResult)
deriving Repr, DecidableEq

/-- `analyze_url`: fetch, the `if not html` guard, parse (collaborator
`parse`), then the analyzer pipeline.  A raised analyzer exception
escapes as `Except.error`. -/
def analyze_url (lib : StdLib) (parse : String → Soup) (url : Option String)
    (netResp : Option FetchResult) (w : Worlds) : Except String Envelope :=
  match fetch_page url netResp with
  | none =>
    Except.ok
      { status := "error", url := url
        message := some "Failed to fetch or parse the page.", checks := [] }
  | some f =>
    if f.text = "" then
      Except.ok
        { status := "error", url := url
          message := some "Failed to fetch or parse the page.", checks := [] }
    else do
      let soup := parse f.text
      let checks ← runChecks lib soup f.text f.finalUrl w
      pure { status := "success", url := some f.finalUrl, message := none
             checks := checks }

/-- `SEOView.get` (`app/seo/views.py`): a 400 response carrying the error
envelope when the orchestrator reports an error, otherwise the score is
computed and a 200 (or 400 when the serializer rejects the payload,
abstracted by `serializerValid`) is returned. -/
def seoView_get (lib : StdLib) (parse : String → Soup) (url : Option String)
    (netResp : Option FetchResult) (w : Worlds) (serializerValid : Bool) :
    Except String (Nat × Envelope × Option ScoreSummary) := do
  let res ← analyze_url lib parse url netResp w
  if res.status = "error" then
    pure (400, res, none)
  else
    let seo_score := calculate_seo_score res.checks
    if serializerValid then
      pure (200, res, some seo_score)
    else
      pure (400, res, some seo_score)

/-! ### The uniform Check Result contract (C6) -/

theorem append_eq_empty_iff (a b : String) : a ++ b = "" ↔ a = "" ∧ b = "" := by
  constructor
  · intro h
    have hd := congrArg String.data h
    rw [String.data_append] at hd
    have h2 := List.append_eq_nil.mp hd
    exact ⟨String.ext h2.1, String.ext h2.2⟩
  · rintro ⟨rfl, rfl⟩
    rfl

/-- The base contract: a tri-state status and a non-empty description. -/
def validCR (r : CheckResult) : Prop :=
  (r.status = "passed" ∨ r.status = "warning" ∨ r.status = "failed") ∧
  r.description ≠ ""

theorem valid_analyze_keywords (s : Option Unit) :
    validCR (analyze_keywords s) := by
  cases s <;> exact ⟨by simp [analyze_keywords], by simp [analyze_keywords]⟩

theorem valid_check_title_tag (t : Option String) :
    validCR (check_title_tag t) := by
  simp only [check_title_tag]
  split_ifs <;> exact ⟨by simp, by simp [append_eq_empty_iff]⟩

theorem valid_analyze_meta (tags : List MetaTag) :
    validCR (analyze_meta tags) := by
  cases hp : metaPick tags with
  | none =>
    simp only [analyze_meta, hp]
    split_ifs <;> exact ⟨by simp, by simp [append_eq_empty_iff]⟩
  | some t =>
    simp only [analyze_meta, hp]
    split_ifs <;> exact ⟨by simp, by simp [append_eq_empty_iff]⟩

theorem valid_analyze_h1s (l : List String) : validCR (analyze_h1s l) := by
  simp only [analyze_h1s]
  split_ifs <;> exact ⟨by simp, by simp [append_eq_empty_iff]⟩

theorem valid_analyze_heading_structure (levels : List Nat) (r : HeadingCheck)
    (h : analyze_heading_structure levels = Except.ok r) :
    validCR r.toCheckResult := by
  unfold analyze_heading_structure at h
  cases hm : levels.dedup.max? with
  | none =>
    rw [hm] at h
    exact absurd h (by simp)
  | some maxL =>
    rw [hm] at h
    simp only [] at h
    split_ifs at h <;>
      (injection h with h2; subst h2;
       exact ⟨by simp [HeadingCheck.toCheckResult],
              by simp [HeadingCheck.toCheckResult]⟩)

theorem valid_analyze_images (alts : List (Option String)) :
    validCR (analyze_images alts) := by
  simp only [analyze_images]
  split_ifs <;> exact ⟨by simp, by simp [append_eq_empty_iff]⟩

theorem valid_analyze_lazy_loading (loadings : List (Option String)) :
    validCR (analyze_lazy_loading loadings) := by
  simp only [analyze_lazy_loading]
  split_ifs <;> exact ⟨by simp, by simp [append_eq_empty_iff]⟩

theorem valid_analyze_links (urljoin : String → String → String)
    (netloc : String → String) (w : LinkWorld) (base : String)
    (aTags : List ATag) : validCR (analyze_links urljoin netloc w base aTags) := by
  simp only [analyze_links]
  split_ifs <;> exact ⟨by simp, by simp [append_eq_empty_iff]⟩

theorem valid_check_canonical (hasScheme : String → Bool) (headExists : Bool)
    (canonical : Option CanonicalTag) :
    validCR (check_canonical hasScheme headExists canonical) := by
  simp only [check_canonical]
  split_ifs <;> exact ⟨by simp, by simp [append_eq_empty_iff]⟩

theorem valid_check_noindex (l : List String) : validCR (check_noindex l) := by
  simp only [check_noindex]
  split_ifs <;> exact ⟨by simp, by simp [append_eq_empty_iff]⟩

theorem valid_check_robots_txt (robots_url : String)
    (resp : Option (Nat × String)) :
    validCR (check_robots_txt robots_url resp) := by
  rcases resp with _ | ⟨code, content⟩
  · exact ⟨by simp [check_robots_txt], by simp [check_robots_txt]⟩
  · simp only [check_robots_txt]
    split_ifs <;> exact ⟨by simp, by simp [append_eq_empty_iff]⟩

theorem valid_analyze_schema_org (microdataCount : Nat) (jsonLdValid : List Bool) :
    validCR (analyze_schema_org microdataCount jsonLdValid) := by
  simp only [analyze_schema_org]
  split_ifs <;> exact ⟨by simp, by simp [append_eq_empty_iff]⟩

theorem valid_check_favicon (soupPresent headExists : Bool)
    (linkTags : List LinkTag) (msTileContent : Option (Option String)) :
    validCR (check_favicon soupPresent headExists linkTags msTileContent) := by
  cases hp : faviconPick linkTags with
  | none =>
    simp only [check_favicon, hp]
    split_ifs <;> exact ⟨by simp, by simp [append_eq_empty_iff]⟩
  | some tag =>
    simp only [check_favicon, hp]
    split_ifs <;> exact ⟨by simp, by simp [append_eq_empty_iff]⟩

theorem valid_check_amp (ampLink : Option (Option String)) :
    validCR (check_amp ampLink) := by
  simp only [check_amp]
  split_ifs <;> exact ⟨by simp, by simp [append_eq_empty_iff]⟩

theorem valid_check_http_redirect (resp : Option (String × List String)) :
    validCR (check_http_redirect resp) := by
  rcases resp with _ | ⟨final_url, history⟩
  · exact ⟨by simp [check_http_redirect], by simp [check_http_redirect]⟩
  · simp only [check_http_redirect]
    split_ifs <;> exact ⟨by simp, by simp [append_eq_empty_iff]⟩

theorem valid_check_404_page (resp : Option (Nat × String)) :
    validCR (check_404_page resp) := by
  rcases resp with _ | ⟨code, text⟩
  · exact ⟨by simp [check_404_page], by simp [check_404_page]⟩
  · simp only [check_404_page]
    split_ifs <;> exact ⟨by simp, by simp [append_eq_empty_iff]⟩

theorem valid_check_text_compression (resp : Option String) :
    validCR (check_text_compression resp) := by
  rcases resp with _ | enc
  · exact ⟨by simp [check_text_compression], by simp [check_text_compression]⟩
  · simp only [check_text_compression]
    split_ifs <;> exact ⟨by simp, by simp [append_eq_empty_iff]⟩

theorem valid_check_viewport_meta (metas : List MetaTag)
    (rawMatch : Option (String × String)) :
    validCR (check_viewport_meta metas rawMatch) := by
  cases hp : viewportPick metas with
  | some tag =>
    simp only [check_viewport_meta, hp]
    split_ifs <;> exact ⟨by simp, by simp [append_eq_empty_iff]⟩
  | none =>
    rcases rawMatch with _ | ⟨tagStr, content⟩ <;> simp only [check_viewport_meta, hp]
    · exact ⟨by simp, by simp⟩
    · split_ifs <;> exact ⟨by simp, by simp [append_eq_empty_iff]⟩

theorem valid_check_social_meta (metas : List MetaTag) :
    validCR (check_social_meta metas) := by
  simp only [check_social_meta]
  split_ifs <;> exact ⟨by simp, by simp [append_eq_empty_iff]⟩

theorem valid_check_iframe_usage (iframes : List String) (threshold : Nat) :
    validCR (check_iframe_usage iframes threshold) := by
  simp only [check_iframe_usage]
  split_ifs <;> exact ⟨by simp, by simp [append_eq_empty_iff]⟩

theorem valid_analyze_html_size (html : String) :
    validCR (analyze_html_size html) := by
  simp only [analyze_html_size, analyze_html_size_core]
  split_ifs <;> exact ⟨by simp, by simp [append_eq_empty_iff]⟩

theorem valid_analyze_minification (at_ : AssetType) (srcs : List String) :
    validCR (analyze_minification at_ srcs) := by
  cases at_ <;>
    · simp only [analyze_minification]
      split_ifs <;> exact ⟨by simp, by simp [append_eq_empty_iff]⟩

theorem valid_check_secure_connection (final_url : String) :
    validCR (check_secure_connection final_url) := by
  simp only [check_secure_connection]
  split_ifs <;> exact ⟨by simp, by simp [append_eq_empty_iff]⟩

theorem valid_check_url_structure (path query : String) :
    validCR (check_url_structure path query) := by
  by_cases hi : urlIssues path query = []
  · exact ⟨by simp [check_url_structure, hi], by simp [check_url_structure, hi]⟩
  · exact ⟨by simp [check_url_structure, hi],
           by simp [check_url_structure, hi, append_eq_empty_iff]⟩

theorem valid_check_page_speed_indicators (htmlChars inlineStyleCount : Nat)
    (headScripts : List ScriptTag) (cssFileCount : Nat)
    (jsFiles : List ScriptTag) :
    validCR (check_page_speed_indicators htmlChars inlineStyleCount headScripts
      cssFileCount jsFiles) := by
  by_cases hi : pageSpeedIssues htmlChars inlineStyleCount headScripts
      cssFileCount jsFiles = []
  · exact ⟨by simp [check_page_speed_indicators, hi],
           by simp [check_page_speed_indicators, hi]⟩
  · exact ⟨by simp [check_page_speed_indicators, hi],
           by simp [check_page_speed_indicators, hi, append_eq_empty_iff]⟩

/-- C6: every analyzer in the catalog, on every input on which it
returns, yields a Check Result whose status is exactly one of `passed`,
`warning`, `failed`, with a non-empty description. -/
theorem C6_uniform_contract :
    (∀ s, validCR (analyze_keywords s)) ∧
    (∀ t, validCR (check_title_tag t)) ∧
    (∀ tags, validCR (analyze_meta tags)) ∧
    (∀ l, validCR (analyze_h1s l)) ∧
    (∀ levels r, analyze_heading_structure levels = Except.ok r →
      validCR r.toCheckResult) ∧
    (∀ alts, validCR (analyze_images alts)) ∧
    (∀ loadings, validCR (analyze_lazy_loading loadings)) ∧
    (∀ urljoin netloc w base aTags,
      validCR (analyze_links urljoin netloc w base aTags)) ∧
    (∀ hasScheme headExists canonical,
      validCR (check_canonical hasScheme headExists canonical)) ∧
    (∀ l, validCR (check_noindex l)) ∧
    (∀ u resp, validCR (check_robots_txt u resp)) ∧
    (∀ m j, validCR (analyze_schema_org m j)) ∧
    (∀ sp he lt ms, validCR (check_favicon sp he lt ms)) ∧
    (∀ a, validCR (check_amp a)) ∧
    (∀ resp, validCR (check_http_redirect resp)) ∧
    (∀ resp, validCR (check_404_page resp)) ∧
    (∀ resp, validCR (check_text_compression resp)) ∧
    (∀ metas raw, validCR (check_viewport_meta metas raw)) ∧
    (∀ metas, validCR (check_social_meta metas)) ∧
    (∀ ifr th, validCR (check_iframe_usage ifr th)) ∧
    (∀ html, validCR (analyze_html_size html)) ∧
    (∀ at_ srcs, validCR (analyze_minification at_ srcs)) ∧
    (∀ u, validCR (check_secure_connection u)) ∧
    (∀ p q, validCR (check_url_structure p q)) ∧
    (∀ hc isc hs cfc jf, validCR (check_page_speed_indicators hc isc hs cfc jf)) :=
  ⟨valid_analyze_keywords, valid_check_title_tag, valid_analyze_meta,
   valid_analyze_h1s, valid_analyze_heading_structure, valid_analyze_images,
   valid_analyze_lazy_loading, valid_analyze_links, valid_check_canonical,
   valid_check_noindex, valid_check_robots_txt, valid_analyze_schema_org,
   valid_check_favicon, valid_check_amp, valid_check_http_redirect,
   valid_check_404_page, valid_check_text_compression, valid_check_viewport_meta,
   valid_check_social_meta, valid_check_iframe_usage, valid_analyze_html_size,
   valid_analyze_minification, valid_check_secure_connection,
   valid_check_url_structure, valid_check_page_speed_indicators⟩

/-- `C6_uniform_contract` at a concrete input with the heading
hypothesis discharged: the single-h1 page returns a passed result
satisfying the contract. -/
theorem C6_uniform_contract_witness :
    validCR (HeadingCheck.toCheckResult
      { status := "passed"
        description := "Heading tags are well-structured and follow a logical hierarchy."
        heading_order := ["h1"]
        missing_levels := []
        out_of_order := false }) := by
  have h := C6_uniform_contract
  exact h.2.2.2.2.1 [1] _ rfl

/-! ### Orchestrator-level claims (C2, C9, C10) -/

theorem except_ok_bind {ε α β : Type} (a : α) (f : α → Except ε β) :
    ((Except.ok a : Except ε α) >>= f) = f a := rfl

theorem except_error_bind {ε α β : Type} (e : ε) (f : α → Except ε β) :
    ((Except.error e : Except ε α) >>= f) = Except.error e := rfl

/-- A parsed document with nothing in it (in particular: no h1-h6
headings). -/
def emptySoup : Soup :=
  { title := none, metaTags := [], h1s := [], headingLevels := []
    imgAlts := [], mediaLoadings := [], aTags := [], headExists := false
    canonical := none, robotsMetaContents := [], viewportRaw := none
    iframes := [], microdataCount := 0, jsonLdValid := [], linkTags := []
    msTileContent := none, ampLink := none, cssHrefs := []
    inlineStyleCount := 0, headScripts := [], cssFileCount := 0, jsFiles := [] }

/-- Concrete standard-library collaborators for evaluation. -/
def trivLib : StdLib :=
  { urljoin := fun _ href => href
    netloc := fun _ => ""
    hasScheme := fun _ => true
    pathQuery := fun _ => ("/", "") }

/-- Auxiliary-request outcomes where every probe raises. -/
def emptyWorlds : Worlds :=
  { robots_url := "http://x/robots.txt", robotsResp := none
    redirectResp := none, notFoundResp := none, compressionResp := none
    linkWorld := ⟨fun _ => none, fun _ => none⟩ }

/-- A successful fetch of a non-empty page that contains no headings. -/
def noHeadingFetch : FetchResult := ⟨"<p>x</p>", "http://x/"⟩

/-- C2 fails on the code: no analyzer call in `analyze_url` is wrapped in
a recovery block, so the `ValueError` that `analyze_heading_structure`
raises on a heading-less page escapes `analyze_url` — the checks built
before it are discarded, the analyzers after it never run, and no report
(and no `failed` Check Result for the raising analyzer) is produced. -/
theorem C2_analyzer_exception_escapes :
    runChecks trivLib emptySoup "<p>x</p>" "http://x/" emptyWorlds =
      Except.error "ValueError: max() arg is an empty sequence" ∧
    (∀ l, runChecks trivLib emptySoup "<p>x</p>" "http://x/" emptyWorlds ≠
      Except.ok l) ∧
    analyze_url trivLib (fun _ => emptySoup) (some "http://x/")
        (some noHeadingFetch) emptyWorlds =
      Except.error "ValueError: max() arg is an empty sequence" := by
  refine ⟨rfl, ?_, rfl⟩
  intro l h
  rw [show runChecks trivLib emptySoup "<p>x</p>" "http://x/" emptyWorlds =
        Except.error "ValueError: max() arg is an empty sequence" from rfl] at h
  exact Except.noConfusion h

/-- C9: when the page fetch fails (network error, non-2xx status,
timeout, malformed or missing URL — all cases in which `fetch_page`
yields its failure triple), `analyze_url` returns the error envelope with
no checks and runs no analyzer, and the view maps it to a 400 response. -/
theorem C9_fetch_failure_envelope (lib : StdLib) (parse : String → Soup)
    (url : Option String) (w : Worlds) (sv : Bool) :
    analyze_url lib parse url none w =
      Except.ok
        { status := "error", url := url
          message := some "Failed to fetch or parse the page.", checks := [] } ∧
    seoView_get lib parse url none w sv =
      Except.ok
        (400,
         { status := "error", url := url
           message := some "Failed to fetch or parse the page.", checks := [] },
         none) := by
  have hfetch : fetch_page url none = none := by
    cases url with
    | none => rfl
    | some u => by_cases hu : u = "" <;> simp [fetch_page, hu]
  have hana : analyze_url lib parse url none w =
      Except.ok
        { status := "error", url := url
          message := some "Failed to fetch or parse the page.", checks := [] } := by
    unfold analyze_url
    rw [hfetch]
  refine ⟨hana, ?_⟩
  unfold seoView_get
  rw [hana, except_ok_bind]
  rfl

/-- `C9_fetch_failure_envelope` evaluated at the concrete malformed URL
scenario. -/
theorem C9_fetch_failure_envelope_witness :
    analyze_url trivLib (fun _ => emptySoup) (some "not-a-url") none emptyWorlds =
      Except.ok
        { status := "error", url := some "not-a-url"
          message := some "Failed to fetch or parse the page.", checks := [] } :=
  (C9_fetch_failure_envelope trivLib (fun _ => emptySoup) (some "not-a-url")
    emptyWorlds true).1

/-- C10 fails as an `iff` on the code: a 2xx fetch of a non-empty body
can still fail to produce the success envelope, because the heading
analyzer raises on a heading-less page and `analyze_url` lets the
exception escape — here the fetch succeeds with non-empty text, yet no
envelope at all is returned. -/
theorem C10_counterexample :
    ("<p>x</p>" : String) ≠ "" ∧
    fetch_page (some "http://x/") (some noHeadingFetch) = some noHeadingFetch ∧
    (∀ env, analyze_url trivLib (fun _ => emptySoup) (some "http://x/")
        (some noHeadingFetch) emptyWorlds ≠ Except.ok env) := by
  refine ⟨by decide, rfl, ?_⟩
  intro env h
  rw [show analyze_url trivLib (fun _ => emptySoup) (some "http://x/")
        (some noHeadingFetch) emptyWorlds =
      Except.error "ValueError: max() arg is an empty sequence" from rfl] at h
  exact Except.noConfusion h

theorem analyze_url_success_case (lib : StdLib) (parse : String → Soup)
    (url : String) (f : FetchResult) (w : Worlds)
    (hu : ¬ url = "") (ht : ¬ f.text = "") :
    analyze_url lib parse (some url) (some f) w =
      (runChecks lib (parse f.text) f.text f.finalUrl w >>= fun checks =>
        pure { status := "success", url := some f.finalUrl, message := none
               checks := checks }) := by
  unfold analyze_url
  simp [fetch_page, hu, ht]

/-- C10 amended: a fetched page whose body is the empty string is treated
exactly like a fetch failure — the error envelope (message "Failed to
fetch or parse the page.", empty checks mapping) is returned and no
analyzer runs; and whenever `analyze_url` returns an envelope at all, it
is the success envelope exactly when the fetched text is non-empty (on
some non-empty pages the pipeline instead raises and returns nothing). -/
theorem C10_empty_body_is_error (lib : StdLib) (parse : String → Soup)
    (url : String) (f : FetchResult) (w : Worlds) (hu : url ≠ "") :
    (f.text = "" →
      analyze_url lib parse (some url) (some f) w =
        Except.ok
          { status := "error", url := some url
            message := some "Failed to fetch or parse the page.", checks := [] }) ∧
    (∀ env, analyze_url lib parse (some url) (some f) w = Except.ok env →
      (env.status = "success" ↔ f.text ≠ "")) := by
  constructor
  · intro ht
    unfold analyze_url
    simp [fetch_page, hu, ht]
  · intro env h
    by_cases ht : f.text = ""
    · have ha : analyze_url lib parse (some url) (some f) w =
          Except.ok
            { status := "error", url := some url
              message := some "Failed to fetch or parse the page.", checks := [] } := by
        unfold analyze_url
        simp [fetch_page, hu, ht]
      rw [ha] at h
      obtain rfl := Except.ok.inj h
      simp [ht]
    · rw [analyze_url_success_case lib parse url f w hu ht] at h
      cases hr : runChecks lib (parse f.text) f.text f.finalUrl w with
      | error e =>
        rw [hr, except_error_bind] at h
        exact absurd h (by simp)
      | ok l =>
        rw [hr, except_ok_bind] at h
        obtain rfl := Except.ok.inj h
        simp [ht]

/-- `C10_empty_body_is_error` at a concrete empty-body fetch. -/
theorem C10_empty_body_is_error_witness :
    analyze_url trivLib (fun _ => emptySoup) (some "http://x/")
        (some ⟨"", "http://x/"⟩) emptyWorlds =
      Except.ok
        { status := "error", url := some "http://x/"
          message := some "Failed to fetch or parse the page.", checks := [] } :=
  (C10_empty_body_is_error trivLib (fun _ => emptySoup) "http://x/"
    ⟨"", "http://x/"⟩ emptyWorlds (by decide)).1 rfl

end MarketGo
